import Mathlib

/-!
# Verification of the model-serving and risk-assessment core (`backend/services.py`)

A shallow embedding of the model-serving pipeline of this repository:
artifact loading (`ModelService.load_model`), predictor-order resolution and
feature-frame construction (`ModelService.preprocess_data`), batch
summarization (`AnalysisService.analyze_csv` and its helpers), and the risk
interpreter (`RiskService.calculate_risk`, `_get_key_factors`,
`_get_recommendations`).

Conventions of the embedding:
* Python floats are modelled by `ℚ` with exact arithmetic; the float value
  NaN, which arises only from the `0.0/0.0` skewness computation, is modelled
  explicitly where it occurs (see `describe_distribution`).
* A trained estimator is an external artifact; its observable surface
  (declared feature names, booster feature names, probability output, raw
  predictions) is passed in as data, so the embedded functions are the exact
  post-externals logic of the Python source.
* Raised exceptions are modelled by `Option`/`Except` results.
-/

namespace MsbaSite

/-- The observable surface of a deserialized model artifact:
`feature_names_in_` when the attribute exists (`none` models a missing
attribute), whether `get_booster` exists, and the booster's
`feature_names` attribute (`none` models a missing attribute; `some []`
models a present but falsy/empty value). -/
structure ModelArtifact where
  feature_names_in : Option (List String)
  hasGetBooster : Bool
  boosterFeatureNames : Option (List String)
  deriving Repr, DecidableEq

/-- `pat in s` on Python strings: `pat` occurs as a contiguous substring. -/
def strContains (s pat : String) : Bool :=
  decide (pat.toList <:+: s.toList)

/-- `model_info.pkl` contents (`ModelService.load_model_info`,
services.py 26-85), as consumed by `preprocess_data`:
`model_info.get('predictors', [])` etc.; a key absent from the loaded dict
corresponds to the field holding `[]`. -/
structure ModelInfo where
  predictors : List String
  scale_features : List String
  leave_unscaled : List String
  model_performance : List (String × ℚ)
  deriving Repr, DecidableEq

/-- Predictor-order resolution of `ModelService.preprocess_data`
(services.py 124-146).  `loadedModel = none` models both a falsy
`model_name` (line 126) and a `load_model` exception caught at line 144;
in either case the metadata predictors are used.  Otherwise:
`feature_names_in_` wins if present; else, for a model name containing
`"xgboost"` (lowercased), the booster's non-empty `feature_names` list;
else the metadata predictors. -/
def resolvePredictors (loadedModel : Option ModelArtifact) (modelName : String)
    (metaPredictors : List String) : List String :=
  match loadedModel with
  | none => metaPredictors
  | some m =>
    match m.feature_names_in with
    | some fns => fns
    | none =>
      if strContains modelName.toLower "xgboost" then
        if m.hasGetBooster then
          match m.boosterFeatureNames with
          | some bf => if bf.isEmpty then metaPredictors else bf
          | none => metaPredictors
        else metaPredictors
      else metaPredictors

/-! ## RiskService (services.py 343-707) -/

/-- Python `features.get(key, default)` over the feature dictionary (an
association list of feature name to numeric value, booleans already coerced
to 0/1 as in `calculate_risk` lines 551-553). -/
def dictGet (d : List (String × ℚ)) (k : String) (default : ℚ) : ℚ :=
  match d.lookup k with
  | some v => v
  | none => default

/-- One entry of the `key_factors` list. -/
structure Factor where
  factor : String
  impact : String
  description : String
  deriving Repr, DecidableEq

/-- Factor of the `Repeat_Founder == 0` check (services.py 613-618). -/
def factorFirstTime : Factor :=
  ⟨"First-time Founder", "medium",
   "First-time founders may lack entrepreneurial experience"⟩

/-- Factor of the `Financing for entrepreneurs < 3.5` check (619-624). -/
def factorFinancing : Factor :=
  ⟨"Poor Access to Financing", "high",
   "Limited access to financing increases failure risk"⟩

/-- Factor of the `Trademarks Registered == 0` check (625-630). -/
def factorNoIP : Factor :=
  ⟨"No Intellectual Property", "medium",
   "Lack of registered trademarks may indicate weak IP protection"⟩

/-- Factor of the `Number of Events < 3` check (631-636). -/
def factorLowActivity : Factor :=
  ⟨"Low Market Activity", "medium",
   "Limited participation in events may indicate poor market engagement"⟩

/-- Factor of the `High Tech Dummy == 0` check (637-642). -/
def factorNonTech : Factor :=
  ⟨"Non-Tech Sector", "low",
   "Non-tech startups may face different scaling challenges"⟩

/-- Factor of the `Governmental support and policies < 3.0` check (643-648). -/
def factorGovSupport : Factor :=
  ⟨"Poor Government Support", "medium",
   "Limited governmental support may hinder growth"⟩

/-- Factor of the `R&D transfer < 3.0` check (649-654). -/
def factorWeakRnD : Factor :=
  ⟨"Weak R&D Transfer", "medium",
   "Poor R&D transfer may limit innovation capabilities"⟩

/-- Factor of the `Commercial and professional infrastructure < 3.5`
check (655-660). -/
def factorWeakInfra : Factor :=
  ⟨"Weak Infrastructure", "high",
   "Poor commercial infrastructure limits business operations"⟩

/-- Factor of the `Internal market dynamics < 3.5` check (661-666). -/
def factorMarketDyn : Factor :=
  ⟨"Poor Market Dynamics", "medium",
   "Weak market dynamics may limit growth opportunities"⟩

/-- The rule list with its nine condition outcomes abstracted: the encounter
order and the impact tags are fixed by the source. -/
def checksOf (b1 b2 b3 b4 b5 b6 b7 b8 b9 : Bool) : List (Bool × Factor) :=
  [ (b1, factorFirstTime), (b2, factorFinancing), (b3, factorNoIP),
    (b4, factorLowActivity), (b5, factorNonTech), (b6, factorGovSupport),
    (b7, factorWeakRnD), (b8, factorWeakInfra), (b9, factorMarketDyn) ]

/-- The fixed ordered rule list of `RiskService._get_key_factors`
(services.py 612-667): each check's condition evaluated on the resolved
feature values, paired with the factor it contributes. -/
def riskChecks (features : List (String × ℚ)) : List (Bool × Factor) :=
  checksOf
    (decide (dictGet features "Repeat_Founder" 0 = 0))
    (decide (dictGet features "Financing for entrepreneurs" (9/2) < 7/2))
    (decide (dictGet features "Trademarks Registered" 1 = 0))
    (decide (dictGet features "Number of Events" 5 < 3))
    (decide (dictGet features "High Tech Dummy" 1 = 0))
    (decide (dictGet features "Governmental support and policies" 4 < 3))
    (decide (dictGet features "R&D transfer" 4 < 3))
    (decide (dictGet features "Commercial and professional infrastructure" 5 < 7/2))
    (decide (dictGet features "Internal market dynamics" (9/2) < 7/2))

/-- `impact_order = {"high": 3, "medium": 2, "low": 1}` with
`.get(x, 0)` (services.py 679). -/
def impactOrder (impact : String) : ℕ :=
  if impact = "high" then 3
  else if impact = "medium" then 2
  else if impact = "low" then 1
  else 0

/-- Stable insertion step for descending sort by `impactOrder`: the element
`x` (earlier in the original list) is placed before the first element whose
key is not greater, so ties keep encounter order — matching Python's stable
`list.sort(key=..., reverse=True)`. -/
def insertByImpactDesc (x : Factor) : List Factor → List Factor
  | [] => [x]
  | y :: ys =>
    if impactOrder y.impact ≤ impactOrder x.impact then x :: y :: ys
    else y :: insertByImpactDesc x ys

/-- `factors.sort(key=lambda x: impact_order.get(x["impact"], 0),
reverse=True)` (services.py 680): a stable descending sort. -/
def pySortByImpactDesc : List Factor → List Factor
  | [] => []
  | x :: xs => insertByImpactDesc x (pySortByImpactDesc xs)

/-- `RiskService._get_key_factors` (services.py 607-682): collect the
factors of the triggered checks in encounter order, stable-sort descending
by impact, return the first 5.  The `risk_score` parameter is accepted (as
in the source) and never consulted. -/
def get_key_factors (features : List (String × ℚ)) (_risk_score : ℚ) : List Factor :=
  let factors := ((riskChecks features).filter (fun c => c.1)).map (fun c => c.2)
  (pySortByImpactDesc factors).take 5

/-- `RiskService._get_recommendations` (services.py 684-707). -/
def get_recommendations (risk_level : String) (_features : List (String × ℚ)) :
    List String :=
  let recommendations :=
    if risk_level = "high" then
      [ "Consider seeking additional investors to validate your business model",
        "Focus on improving access to financing and funding sources",
        "Strengthen your business fundamentals and market positioning" ]
    else if risk_level = "medium" then
      [ "Continue building investor relationships and market validation",
        "Consider strategic partnerships to reduce operational risks",
        "Monitor key performance indicators closely" ]
    else
      [ "Maintain current momentum and continue execution",
        "Consider scaling operations and market expansion",
        "Focus on sustainable growth and profitability" ]
  recommendations.take 3

/-- Risk-score selection in `calculate_risk` (services.py 558-579):
`probaRow` is the model's `predict_proba(processed_df)[0]` when the model
has that attribute (`none` otherwise); `rawPred` is `predict(...)[0]`,
used as the fallback.  `probabilities[0][1]` is taken when the row has
more than one class column, else `probabilities[0][0]`. -/
def riskScoreOf (probaRow : Option (List ℚ)) (rawPred : ℚ) : ℚ :=
  match probaRow with
  | some row => if row.length > 1 then row.getD 1 0 else row.getD 0 0
  | none => rawPred

/-- Risk-level thresholds of `calculate_risk` (services.py 581-587). -/
def riskLevelOf (risk_score : ℚ) : String :=
  if risk_score < 3/10 then "low"
  else if risk_score < 7/10 then "medium"
  else "high"

/-- The returned assessment (services.py 599-605). -/
structure RiskAssessment where
  risk_score : ℚ
  risk_level : String
  confidence : ℚ
  key_factors : List Factor
  recommendations : List String
  deriving Repr, DecidableEq

/-- `RiskService.calculate_risk` after the external model call
(services.py 556-605), parameterized by the model's outputs on the
single-row frame: the risk score, level, confidence
`max(abs(risk_score - 0.5) * 2, 0.6)`, key factors and recommendations. -/
def calculateRiskAssessment (features : List (String × ℚ))
    (probaRow : Option (List ℚ)) (rawPred : ℚ) : RiskAssessment :=
  let risk_score := riskScoreOf probaRow rawPred
  let risk_level := riskLevelOf risk_score
  { risk_score := risk_score
    risk_level := risk_level
    confidence := max (|risk_score - 1/2| * 2) (6/10)
    key_factors := get_key_factors features risk_score
    recommendations := get_recommendations risk_level features }

/-! ## ArtifactStore: `ModelService.load_model` (services.py 100-117) and the
upstream handler's exception mapping (main.py 113-119) -/

/-- What deserializing a present `{name}.pkl` file does: yields a model, or
raises one of `pickle.UnpicklingError`, `EOFError`, `ValueError`
(the corrupted case caught at services.py 115). -/
inductive PickleResult where
  | ok (m : ModelArtifact)
  | corrupt
  deriving Repr, DecidableEq

/-- The exceptions `load_model` and the `analyze_csv` route handler care
about, keyed by Python exception class. -/
inductive PyError where
  | fileNotFoundError (msg : String)
  | otherError (msg : String)
  deriving Repr, DecidableEq

/-- Message of the missing-file branch (services.py 107). -/
def notFoundMsg (name : String) : String :=
  "Model " ++ name ++ ".pkl not found in models directory"

/-- Message of the corrupted-file branch (services.py 117). -/
def corruptMsg (name : String) : String :=
  "Model " ++ name ++ ".pkl is corrupted and cannot be loaded"

/-- `ModelService.load_model` (services.py 100-117) on an uncached name.
The models directory is an association list from model name to the outcome
of deserializing `{name}.pkl`; a name absent from the list has no backing
file.  Both failure branches raise `FileNotFoundError`, with different
messages. -/
def load_model (modelsDir : List (String × PickleResult)) (name : String) :
    Except PyError ModelArtifact :=
  match modelsDir.lookup name with
  | none => .error (.fileNotFoundError (notFoundMsg name))
  | some .corrupt => .error (.fileNotFoundError (corruptMsg name))
  | some (.ok m) => .ok m

/-- `True` exactly for the `FileNotFoundError` exception class: the only
property of the raised error the upstream handler can dispatch on. -/
def isFileNotFoundError : PyError → Bool
  | .fileNotFoundError _ => true
  | .otherError _ => false

/-- The `analyze_csv` route handler's mapping from a model-analysis
exception to an HTTP status (main.py 113-119): `except FileNotFoundError`
gives 404, any other exception gives 500. -/
def analyzeHttpStatus (e : PyError) : ℕ :=
  if isFileNotFoundError e then 404 else 500

/-! ## FeatureResolver: `ModelService.preprocess_data` (services.py 119-188) -/

/-- A pandas DataFrame: named columns, each with a numeric-dtype flag
(`select_dtypes(include=[np.number])` keeps the flagged ones), and rows of
cells aligned with `cols`; a `none` cell is a missing value (NaN). -/
structure Frame where
  cols : List String
  numeric : List Bool
  rows : List (List (Option ℚ))
  deriving Repr, DecidableEq

/-- Position of a column name, `none` if absent. -/
def Frame.colIdx (df : Frame) (c : String) : Option ℕ :=
  df.cols.findIdx? (fun c' => decide (c' = c))

/-- `df[sel]`: select the named columns in exactly the given order; fails
(pandas `KeyError`) when a requested column is absent. -/
def Frame.selectCols? (df : Frame) (sel : List String) : Option Frame :=
  if sel.all (fun c => decide (c ∈ df.cols)) then
    some
      { cols := sel
        numeric := sel.map (fun c =>
          match df.colIdx c with
          | some j => df.numeric.getD j false
          | none => false)
        rows := df.rows.map (fun r => sel.map (fun c =>
          match df.colIdx c with
          | some j => r.getD j none
          | none => none)) }
  else none

/-- `df.select_dtypes(include=[np.number])`: keep the numeric-flagged
columns, order preserved (services.py 165). -/
def Frame.selectNumericCols (df : Frame) : Frame :=
  let keep := (List.range df.cols.length).filter (fun i => df.numeric.getD i false)
  { cols := keep.map (fun i => df.cols.getD i "")
    numeric := keep.map (fun _ => true)
    rows := df.rows.map (fun r => keep.map (fun i => r.getD i none)) }

/-- `df_subset.fillna(0)` (services.py 172). -/
def Frame.fillna0 (df : Frame) : Frame :=
  { df with rows := df.rows.map (fun r => r.map (fun cell => some (cell.getD 0))) }

/-- The loaded scaler artifact, abstractly: a transform on the matrix of the
scale-feature columns; `none` output models the transform raising (the
branch caught at services.py 181-183). -/
def Scaler : Type := List (List ℚ) → Option (List (List ℚ))

/-- The matrix `df[names]` as plain numbers; called after `fillna(0)`, so
every cell is present (an absent cell or column reads as 0, unreachable on
the pipeline's inputs). -/
def Frame.matrixOf (df : Frame) (names : List String) : List (List ℚ) :=
  df.rows.map (fun r => names.map (fun c =>
    match df.colIdx c with
    | some j => (r.getD j none).getD 0
    | none => 0))

/-- `df_subset[scale_features] = scaled` (services.py 179): each row takes
its scale-feature cells from the corresponding row of the scaled matrix,
other cells unchanged. -/
def Frame.assignCols (df : Frame) (names : List String)
    (mat : List (List ℚ)) : Frame :=
  { df with
    rows := (df.rows.zip mat).map (fun rm =>
      (List.range df.cols.length).map (fun j =>
        let c := df.cols.getD j ""
        match names.findIdx? (fun c' => c' = c) with
        | some t => some ((rm.2.getD t 0))
        | none => rm.1.getD j none)) }

/-- The scaling step of `preprocess_data` (services.py 174-185):
`if scaler is not None and scale_features:` apply the transform to exactly
the scale-feature columns, in place; on a transform failure continue with
the unscaled frame. -/
def applyScaling (df : Frame) (scaler : Option Scaler)
    (scale_features : List String) : Frame :=
  match scaler with
  | none => df
  | some sc =>
    if scale_features.isEmpty then df
    else
      match sc (df.matrixOf scale_features) with
      | some scaled => df.assignCols scale_features scaled
      | none => df

/-- The graceful-degradation step of `preprocess_data` (services.py
151-161): if any required predictor column is missing from the data, keep
only the available ones (order preserved) in all three lists. -/
def restrictLists (available predictors scale_features leave_unscaled :
    List String) : List String × List String × List String :=
  let missing := predictors.filter (fun c => decide (c ∉ available))
  if missing.isEmpty then (predictors, scale_features, leave_unscaled)
  else
    (predictors.filter (fun c => decide (c ∈ available)),
     scale_features.filter (fun c => decide (c ∈ available)),
     leave_unscaled.filter (fun c => decide (c ∈ available)))

/-- `ModelService.preprocess_data` (services.py 119-188), parameterized by
the outcome of the model load (see `resolvePredictors`) and the loaded
scaler.  Resolves the predictor order, restricts the feature lists to the
available columns, falls back to all numeric columns when no predictor
remains, selects the predictors in exact order, fills missing values with
0, and scales.  `none` models an uncaught exception (the column selection
failing, which `preprocess_missing_graceful` below shows cannot happen). -/
def preprocess_data (df : Frame) (loadedModel : Option ModelArtifact)
    (modelName : String) (info : ModelInfo) (scaler : Option Scaler) :
    Option Frame :=
  let predictors := resolvePredictors loadedModel modelName info.predictors
  let lists := restrictLists df.cols predictors info.scale_features
    info.leave_unscaled
  if lists.1.isEmpty then some df.selectNumericCols
  else
    match df.selectCols? lists.1 with
    | none => none
    | some sub => some (applyScaling sub.fillna0 scaler lists.2.1)

/-! ## DescriptiveSummarizer: `AnalysisService.analyze_csv` and helpers
(services.py 259-340) -/

/-- Ascending insertion step for sorting a list of values. -/
def insertAsc (x : ℚ) : List ℚ → List ℚ
  | [] => [x]
  | y :: ys => if x ≤ y then x :: y :: ys else y :: insertAsc x ys

/-- Sort values ascending (the sort `np.percentile` performs internally). -/
def sortAsc : List ℚ → List ℚ
  | [] => []
  | x :: xs => insertAsc x (sortAsc xs)

/-- `⌊q⌋` as a natural number, for `q ≥ 0` (the only use below):
`num / den` with integer division. -/
def qFloorNat (q : ℚ) : ℕ := (q.num / (q.den : ℤ)).toNat

/-- `⌈q⌉` as a natural number, for `q ≥ 0`. -/
def qCeilNat (q : ℚ) : ℕ :=
  if ((qFloorNat q : ℚ)) = q then qFloorNat q else qFloorNat q + 1

/-- `np.percentile(xs, p)` with the default linear interpolation: with the
values sorted ascending and `pos = p*(n-1)/100`, the result is
`s[⌊pos⌋] + (s[⌈pos⌉] - s[⌊pos⌋]) * (pos - ⌊pos⌋)`.  On an empty sequence
numpy raises; callers below guard emptiness explicitly, and this total
version returns junk 0 there. -/
def npPercentile (xs : List ℚ) (p : ℚ) : ℚ :=
  let s := sortAsc xs
  let pos : ℚ := p * ((xs.length : ℚ) - 1) / 100
  let lo := qFloorNat pos
  let hi := qCeilNat pos
  s.getD lo 0 + (s.getD hi 0 - s.getD lo 0) * (pos - (lo : ℚ))

/-- `np.mean` (junk 0 on the empty sequence, guarded by callers). -/
def meanQ (xs : List ℚ) : ℚ := xs.sum / (xs.length : ℚ)

/-- The square of `np.std` (population standard deviation).  `ℚ` has no
square roots, so the embedding carries `std²`; this is faithful for every
property used below because `std = 0 ↔ std² = 0` and `√` is injective on
nonnegatives, so two runs agree on `std` iff they agree on `std²`. -/
def stdSqQ (xs : List ℚ) : ℚ := meanQ (xs.map (fun x => (x - meanQ xs) ^ 2))

/-- `np.mean((xs - mean)**3)`, the third central moment. -/
def thirdMomentQ (xs : List ℚ) : ℚ := meanQ (xs.map (fun x => (x - meanQ xs) ^ 3))

/-- `AnalysisService._describe_distribution` (services.py 317-326).  The
code computes `skewness = mean((x-mean)**3) / std**3` in floating point.
When the variance is 0 (all values equal, in particular a singleton batch)
the third moment is also 0 and the quotient is `0.0/0.0 = NaN`; every
comparison with NaN is false, so both the `abs(skewness) < 0.5` branch and
the `skewness > 0.5` branch fail and the final `else` is returned.  When
the variance `v` is nonzero, the branch tests on `g = m3 / v^(3/2)` are
expressed over `ℚ` by the equivalent comparisons
`abs g < 1/2 ↔ 4*m3² < v³` and `g > 1/2 ↔ (0 < m3 ∧ 4*m3² > v³)`. -/
def describe_distribution (predictions : List ℚ) : String :=
  let v := stdSqQ predictions
  let m3 := thirdMomentQ predictions
  if v = 0 then "Left-skewed (more high values)"
  else if 4 * m3 ^ 2 < v ^ 3 then "Normal (symmetric)"
  else if 0 < m3 ∧ 4 * m3 ^ 2 > v ^ 3 then "Right-skewed (more low values)"
  else "Left-skewed (more high values)"

/-- One bucket of the risk segmentation. -/
structure SegmentBucket where
  count : ℕ
  percentage : ℚ
  deriving Repr, DecidableEq

/-- `AnalysisService._segment_predictions` output. -/
structure RiskSegments where
  low : SegmentBucket
  medium : SegmentBucket
  high : SegmentBucket
  deriving Repr, DecidableEq

/-- `AnalysisService._segment_predictions` (services.py 328-340). -/
def segment_predictions (predictions : List ℚ) : RiskSegments :=
  let t1 := npPercentile predictions 33
  let t2 := npPercentile predictions 67
  let n : ℚ := (predictions.length : ℚ)
  let low := (predictions.filter (fun x => decide (x < t1))).length
  let med := (predictions.filter (fun x => decide (t1 ≤ x) && decide (x < t2))).length
  let high := (predictions.filter (fun x => decide (t2 ≤ x))).length
  { low := ⟨low, (low : ℚ) / n * 100⟩
    medium := ⟨med, (med : ℚ) / n * 100⟩
    high := ⟨high, (high : ℚ) / n * 100⟩ }

/-- `np.min` (junk 0 on empty, guarded by callers). -/
def minQ : List ℚ → ℚ
  | [] => 0
  | x :: xs => xs.foldl min x

/-- `np.max` (junk 0 on empty, guarded by callers). -/
def maxQ : List ℚ → ℚ
  | [] => 0
  | x :: xs => xs.foldl max x

/-- `np.histogram(predictions, bins=10)` (services.py 269): 11 equal-width
bin edges over `[min, max]` (numpy widens an empty range to
`[min - 0.5, max + 0.5]` when all values coincide), and 10 counts, each
bin half-open except the last, which is closed. -/
def histogram10 (xs : List ℚ) : List ℚ × List ℕ :=
  let lo₀ := minQ xs
  let hi₀ := maxQ xs
  let lo := if lo₀ = hi₀ then lo₀ - 1/2 else lo₀
  let hi := if lo₀ = hi₀ then hi₀ + 1/2 else hi₀
  let edge := fun (i : ℕ) => lo + (hi - lo) * (i : ℚ) / 10
  ((List.range 11).map edge,
   (List.range 10).map (fun i =>
     (xs.filter (fun x =>
       decide (edge i ≤ x) &&
         (if i = 9 then decide (x ≤ edge 10) else decide (x < edge (i + 1))))).length))

/-- `summary_stats` (services.py 284-291); see `stdSqQ` for the `std`
field's representation. -/
structure SummaryStats where
  count : ℕ
  mean : ℚ
  stdSq : ℚ
  min : ℚ
  max : ℚ
  median : ℚ
  deriving Repr, DecidableEq

/-- `insights.percentiles` (services.py 293-299). -/
structure Percentiles where
  p10 : ℚ
  p25 : ℚ
  p50 : ℚ
  p75 : ℚ
  p90 : ℚ
  deriving Repr, DecidableEq

/-- `insights` (services.py 292-304). -/
structure Insights where
  percentiles : Percentiles
  outlier_count : ℕ
  outlier_percentage : ℚ
  distribution_shape : String
  risk_segments : RiskSegments
  deriving Repr, DecidableEq

/-- `chart_data` (services.py 305-312). -/
structure ChartData where
  histogram_bins : List ℚ
  histogram_counts : List ℕ
  predictions : List ℚ
  indices : List ℕ
  deriving Repr, DecidableEq

/-- The full return payload of `AnalysisService.analyze_csv`
(services.py 281-315). -/
structure AnalyzePayload where
  model_used : String
  predictions : List ℚ
  summary_stats : SummaryStats
  insights : Insights
  chart_data : ChartData
  model_performance : List (String × ℚ)
  timestamp : String
  deriving Repr, DecidableEq

/-- `AnalysisService.analyze_csv` (services.py 259-315) downstream of the
model call: `predictions` is the output of
`self.model_service.predict(model_name, df)` and `now` is the value of
`datetime.now().isoformat()` observed by this call.  On an empty
prediction sequence the very first statistic,
`np.percentile(predictions, [10, 25, 50, 75, 90])` (line 266), raises
(and `outliers / len(predictions)` would divide by zero); the code has no
emptiness guard, so the empty case is the propagated exception, modelled
as `none`. -/
def analyze_csv (model_name : String) (predictions : List ℚ)
    (info : ModelInfo) (now : String) : Option AnalyzePayload :=
  if predictions.isEmpty then none
  else
    let q1 := npPercentile predictions 25
    let q3 := npPercentile predictions 75
    let iqr := q3 - q1
    let outliers := (predictions.filter (fun x =>
      decide (x < q1 - 3/2 * iqr) || decide (x > q3 + 3/2 * iqr))).length
    let bins := histogram10 predictions
    some
      { model_used := model_name
        predictions := predictions
        summary_stats :=
          { count := predictions.length
            mean := meanQ predictions
            stdSq := stdSqQ predictions
            min := minQ predictions
            max := maxQ predictions
            median := npPercentile predictions 50 }
        insights :=
          { percentiles :=
              { p10 := npPercentile predictions 10
                p25 := npPercentile predictions 25
                p50 := npPercentile predictions 50
                p75 := npPercentile predictions 75
                p90 := npPercentile predictions 90 }
            outlier_count := outliers
            outlier_percentage := (outliers : ℚ) / (predictions.length : ℚ) * 100
            distribution_shape := describe_distribution predictions
            risk_segments := segment_predictions predictions }
        chart_data :=
          { histogram_bins := bins.1
            histogram_counts := bins.2
            predictions := predictions.take 100
            indices := List.range (min 100 predictions.length) }
        model_performance := info.model_performance
        timestamp := now }

/-- An `AnalyzePayload` with the timestamp field blanked, for comparing the
time-independent content of two payloads. -/
def eraseTimestamp (p : AnalyzePayload) : AnalyzePayload :=
  { p with timestamp := "" }

/-! ## Helper lemmas -/

theorem isEmpty_false_of_ne_nil {α : Type} {l : List α} (h : l ≠ []) :
    l.isEmpty = false := by
  cases l with
  | nil => exact absurd rfl h
  | cons a t => rfl

theorem insertByImpactDesc_perm (x : Factor) (l : List Factor) :
    (insertByImpactDesc x l).Perm (x :: l) := by
  induction l with
  | nil => exact List.Perm.refl _
  | cons y ys ih =>
    unfold insertByImpactDesc
    split
    · exact List.Perm.refl _
    · exact (ih.cons y).trans (List.Perm.swap x y ys)

theorem pySortByImpactDesc_perm (l : List Factor) :
    (pySortByImpactDesc l).Perm l := by
  induction l with
  | nil => exact List.Perm.refl _
  | cons x xs ih => exact (insertByImpactDesc_perm x _).trans (ih.cons x)

/-- On any outcome of the nine rule conditions, the stable descending sort
of the triggered factors lists the high-impact ones first, then the
medium, then the low, each group in encounter order. -/
theorem pySort_filter_eq : ∀ (b1 b2 b3 b4 b5 b6 b7 b8 b9 : Bool),
    pySortByImpactDesc (((checksOf b1 b2 b3 b4 b5 b6 b7 b8 b9).filter
        (fun c => c.1)).map (fun c => c.2))
      = (((checksOf b1 b2 b3 b4 b5 b6 b7 b8 b9).filter
            (fun c => c.1)).map (fun c => c.2)).filter (fun x => x.impact = "high")
        ++ (((checksOf b1 b2 b3 b4 b5 b6 b7 b8 b9).filter
            (fun c => c.1)).map (fun c => c.2)).filter (fun x => x.impact = "medium")
        ++ (((checksOf b1 b2 b3 b4 b5 b6 b7 b8 b9).filter
            (fun c => c.1)).map (fun c => c.2)).filter (fun x => x.impact = "low") := by
  decide

theorem riskLevelOf_spec (s : ℚ) :
    (riskLevelOf s = "low" ↔ s < 3/10)
    ∧ (riskLevelOf s = "medium" ↔ 3/10 ≤ s ∧ s < 7/10)
    ∧ (riskLevelOf s = "high" ↔ 7/10 ≤ s) := by
  unfold riskLevelOf
  split_ifs with h1 h2
  · exact ⟨iff_of_true rfl h1,
      iff_of_false (by decide) (fun hc => absurd h1 (not_lt.mpr hc.1)),
      iff_of_false (by decide) (fun hc => absurd h1 (not_lt.mpr (by linarith)))⟩
  · exact ⟨iff_of_false (by decide) h1,
      iff_of_true rfl ⟨not_lt.mp h1, h2⟩,
      iff_of_false (by decide) (fun hc => absurd h2 (not_lt.mpr hc))⟩
  · exact ⟨iff_of_false (by decide) h1,
      iff_of_false (by decide) (fun hc => absurd hc.2 h2),
      iff_of_true rfl (not_lt.mp h2)⟩

theorem getD_mem_or_zero (row : List ℚ) (i : ℕ) :
    row.getD i 0 ∈ row ∨ row.getD i 0 = 0 := by
  induction row generalizing i with
  | nil => right; cases i <;> rfl
  | cons a t ih =>
    cases i with
    | zero => left; simp [List.getD]
    | succ n =>
      have hgd : (a :: t).getD (n + 1) 0 = t.getD n 0 := by simp [List.getD]
      rcases ih n with h | h
      · left; rw [hgd]; exact List.mem_cons_of_mem _ h
      · right; rw [hgd]; exact h

theorem fillna0_cols (df : Frame) : df.fillna0.cols = df.cols := rfl

theorem assignCols_cols (df : Frame) (names : List String)
    (mat : List (List ℚ)) : (df.assignCols names mat).cols = df.cols := rfl

theorem applyScaling_cols (df : Frame) (sc : Option Scaler)
    (names : List String) : (applyScaling df sc names).cols = df.cols := by
  cases sc with
  | none => rfl
  | some f =>
    simp only [applyScaling]
    split
    · rfl
    · split <;> rfl

theorem selectCols?_some (df : Frame) (sel : List String)
    (h : ∀ c ∈ sel, c ∈ df.cols) :
    ∃ sub, df.selectCols? sel = some sub ∧ sub.cols = sel := by
  have hall : sel.all (fun c => decide (c ∈ df.cols)) = true := by
    rw [List.all_eq_true]; intro c hc; exact decide_eq_true (h c hc)
  refine ⟨{ cols := sel
            numeric := sel.map (fun c =>
              match df.colIdx c with
              | some j => df.numeric.getD j false
              | none => false)
            rows := df.rows.map (fun r => sel.map (fun c =>
              match df.colIdx c with
              | some j => r.getD j none
              | none => none)) }, ?_, rfl⟩
  unfold Frame.selectCols?
  rw [if_pos hall]

/-! ## Claim theorems -/

/-- C2 (counterexample): for a models directory whose file `m.pkl` exists
but is corrupted, `load_model` raises the very same exception class
(`FileNotFoundError`) as for a missing file, and the upstream
`analyze_csv` handler therefore answers 404, not a 5xx — so callers cannot
distinguish a corrupted model from a missing one, contrary to the claim. -/
theorem claim2_counterexample :
    load_model [("m", PickleResult.corrupt)] "m"
        = Except.error (PyError.fileNotFoundError (corruptMsg "m"))
    ∧ isFileNotFoundError (PyError.fileNotFoundError (corruptMsg "m"))
        = isFileNotFoundError (PyError.fileNotFoundError (notFoundMsg "m"))
    ∧ analyzeHttpStatus (PyError.fileNotFoundError (corruptMsg "m")) = 404 :=
  ⟨rfl, rfl, rfl⟩

/-- C2 (amended): `load_model` on a missing file raises `FileNotFoundError`
with the not-found message; on a corrupted file it raises the same
`FileNotFoundError` class with a message stating corruption — the two
cases differ only in the message string, and the upstream handler maps
both to HTTP 404. -/
theorem claim2_load_model_errors (dir : List (String × PickleResult))
    (n1 n2 : String) (h1 : dir.lookup n1 = none)
    (h2 : dir.lookup n2 = some PickleResult.corrupt) :
    load_model dir n1 = Except.error (PyError.fileNotFoundError (notFoundMsg n1))
    ∧ load_model dir n2 = Except.error (PyError.fileNotFoundError (corruptMsg n2))
    ∧ corruptMsg n2 ≠ notFoundMsg n2
    ∧ analyzeHttpStatus (PyError.fileNotFoundError (notFoundMsg n1)) = 404
    ∧ analyzeHttpStatus (PyError.fileNotFoundError (corruptMsg n2)) = 404 := by
  refine ⟨?_, ?_, ?_, rfl, rfl⟩
  · unfold load_model; rw [h1]
  · unfold load_model; rw [h2]
  · intro hEq
    have h' := congrArg String.data hEq
    simp only [corruptMsg, notFoundMsg, String.data_append] at h'
    have h'' := List.append_cancel_left h'
    exact absurd h'' (by decide)

/-- C2 witness: a directory holding only the corrupted `b.pkl`; the
missing name `a` and the corrupted name `b` both produce
`FileNotFoundError`, both mapped to 404. -/
theorem claim2_load_model_errors_witness :
    ([("b", PickleResult.corrupt)].lookup "a" = none)
    ∧ ([("b", PickleResult.corrupt)].lookup "b" = some PickleResult.corrupt)
    ∧ (load_model [("b", PickleResult.corrupt)] "a"
          = Except.error (PyError.fileNotFoundError (notFoundMsg "a"))
        ∧ load_model [("b", PickleResult.corrupt)] "b"
          = Except.error (PyError.fileNotFoundError (corruptMsg "b"))
        ∧ corruptMsg "b" ≠ notFoundMsg "b"
        ∧ analyzeHttpStatus (PyError.fileNotFoundError (notFoundMsg "a")) = 404
        ∧ analyzeHttpStatus (PyError.fileNotFoundError (corruptMsg "b")) = 404) :=
  ⟨by decide, by decide,
    claim2_load_model_errors [("b", PickleResult.corrupt)] "a" "b"
      (by decide) (by decide)⟩

/-- C4: `calculate_risk` labels a risk score `"low"` iff it is below 0.3,
`"medium"` iff it lies in `[0.3, 0.7)`, and `"high"` iff it is at least
0.7; in particular 0.29 → low, 0.30 → medium, 0.69 → medium,
0.70 → high. -/
theorem claim4_risk_thresholds :
    (∀ (f : List (String × ℚ)) (pr : Option (List ℚ)) (raw : ℚ),
      ((calculateRiskAssessment f pr raw).risk_level = "low"
          ↔ (calculateRiskAssessment f pr raw).risk_score < 3/10)
      ∧ ((calculateRiskAssessment f pr raw).risk_level = "medium"
          ↔ 3/10 ≤ (calculateRiskAssessment f pr raw).risk_score
            ∧ (calculateRiskAssessment f pr raw).risk_score < 7/10)
      ∧ ((calculateRiskAssessment f pr raw).risk_level = "high"
          ↔ 7/10 ≤ (calculateRiskAssessment f pr raw).risk_score))
    ∧ (calculateRiskAssessment [] none (29/100)).risk_level = "low"
    ∧ (calculateRiskAssessment [] none (3/10)).risk_level = "medium"
    ∧ (calculateRiskAssessment [] none (69/100)).risk_level = "medium"
    ∧ (calculateRiskAssessment [] none (7/10)).risk_level = "high" :=
  ⟨fun f pr raw => riskLevelOf_spec (riskScoreOf pr raw),
   by with_unfolding_all decide, by with_unfolding_all decide,
   by with_unfolding_all decide, by with_unfolding_all decide⟩

/-- C5 (counterexample): a model without probability output whose raw
scalar prediction is 42 makes `calculate_risk` return `risk_score = 42`,
outside `[0, 1]` — the code does not clamp the fallback score. -/
theorem claim5_counterexample :
    (calculateRiskAssessment [] none 42).risk_score = 42
    ∧ ¬ (0 ≤ (calculateRiskAssessment [] none 42).risk_score
          ∧ (calculateRiskAssessment [] none 42).risk_score ≤ 1) := by
  with_unfolding_all decide

/-- C5 (amended): when the model exposes class probabilities and every
entry of the returned probability row lies in `[0, 1]`, the risk score
lies in `[0, 1]`; in the raw-prediction fallback the risk score equals
the raw prediction unmodified (no clamping), so it is bounded only when
the model's raw output is. -/
theorem claim5_risk_score_bounds (f : List (String × ℚ)) (row : List ℚ)
    (raw : ℚ) (h : ∀ x ∈ row, 0 ≤ x ∧ x ≤ 1) :
    (0 ≤ (calculateRiskAssessment f (some row) raw).risk_score
      ∧ (calculateRiskAssessment f (some row) raw).risk_score ≤ 1)
    ∧ (calculateRiskAssessment f none raw).risk_score = raw := by
  refine ⟨?_, rfl⟩
  show 0 ≤ riskScoreOf (some row) raw ∧ riskScoreOf (some row) raw ≤ 1
  have hD : ∀ i : ℕ, 0 ≤ row.getD i 0 ∧ row.getD i 0 ≤ 1 := by
    intro i
    rcases getD_mem_or_zero row i with hm | hz
    · exact h _ hm
    · rw [hz]; exact ⟨le_refl 0, by norm_num⟩
  by_cases hlen : row.length > 1
  · simp only [riskScoreOf, if_pos hlen]; exact hD 1
  · simp only [riskScoreOf, if_neg hlen]; exact hD 0

/-- C5 witness: a valid two-class probability row keeps the score in
`[0, 1]`, and the fallback returns the raw prediction 5 unchanged. -/
theorem claim5_risk_score_bounds_witness :
    (∀ x ∈ [(1:ℚ)/4, 3/4], 0 ≤ x ∧ x ≤ 1)
    ∧ ((0 ≤ (calculateRiskAssessment [] (some [1/4, 3/4]) 5).risk_score
          ∧ (calculateRiskAssessment [] (some [1/4, 3/4]) 5).risk_score ≤ 1)
        ∧ (calculateRiskAssessment [] none 5).risk_score = 5) :=
  ⟨by with_unfolding_all decide,
   claim5_risk_score_bounds [] [1/4, 3/4] 5 (by with_unfolding_all decide)⟩

/-- C6: on the singleton prediction batch `[42]` the summarizer completes
(mean 42, population std 0, outlier count 0) but the skewness computation
divides `0.0` by `0.0`, yielding NaN, which fails every branch comparison
in `_describe_distribution`, so the reported distribution shape is
`"Left-skewed (more high values)"` — not the "symmetric" label the claim
requires. -/
theorem claim6_singleton_batch :
    (analyze_csv "model" [42]
        { predictors := [], scale_features := [], leave_unscaled := [],
          model_performance := [] } "t").map (fun p =>
      (p.summary_stats.mean, p.summary_stats.stdSq,
       p.insights.outlier_count, p.insights.distribution_shape))
      = some (42, 0, 0, "Left-skewed (more high values)") := by
  with_unfolding_all decide

/-- C7: `analyze_csv` has no emptiness guard: on a prediction sequence of
length zero the first statistic (`np.percentile`) raises and the outlier
percentage divides by zero, so the call fails (modelled `none`) instead of
returning an explicit no-data payload. -/
theorem claim7_empty_predictions (model_name : String) (info : ModelInfo)
    (now : String) : analyze_csv model_name [] info now = none := rfl

/-- C9: `_get_key_factors` returns exactly the first 5 (or all, when fewer
trigger) of the triggered factors ordered by impact descending — the
high-impact ones first, then medium, then low, ties keeping the encounter
order of the rule list — and the sort loses no triggered factor. -/
theorem claim9_key_factors_sorted_top5 (features : List (String × ℚ))
    (s : ℚ) :
    get_key_factors features s
      = ((((riskChecks features).filter (fun c => c.1)).map
            (fun c => c.2)).filter (fun x => x.impact = "high")
          ++ (((riskChecks features).filter (fun c => c.1)).map
            (fun c => c.2)).filter (fun x => x.impact = "medium")
          ++ (((riskChecks features).filter (fun c => c.1)).map
            (fun c => c.2)).filter (fun x => x.impact = "low")).take 5
    ∧ (pySortByImpactDesc (((riskChecks features).filter (fun c => c.1)).map
          (fun c => c.2))).Perm
        (((riskChecks features).filter (fun c => c.1)).map (fun c => c.2)) := by
  constructor
  · show (pySortByImpactDesc _).take 5 = _
    rw [riskChecks, pySort_filter_eq]
  · exact pySortByImpactDesc_perm _

/-- C10: the key-factor list depends only on the resolved feature values;
the risk-score argument of `_get_key_factors` is never consulted, so any
two scores give identical factor lists. -/
theorem claim10_key_factors_score_independent (features : List (String × ℚ))
    (s1 s2 : ℚ) : get_key_factors features s1 = get_key_factors features s2 :=
  rfl

/-- C1: when the loaded model artifact exposes its trained feature-name
list, that list — in its own order — is the resolved predictor order, it
is the column order of the built feature frame, and whenever it differs
from metadata's predictors the resolved order is not metadata's. -/
theorem claim1_model_feature_order (m : ModelArtifact) (modelName : String)
    (info : ModelInfo) (df : Frame) (sc : Option Scaler) (fns : List String)
    (h : m.feature_names_in = some fns) (hne : fns ≠ [])
    (hsub : ∀ c ∈ fns, c ∈ df.cols) :
    resolvePredictors (some m) modelName info.predictors = fns
    ∧ (fns ≠ info.predictors →
        resolvePredictors (some m) modelName info.predictors ≠ info.predictors)
    ∧ ∃ out, preprocess_data df (some m) modelName info sc = some out
        ∧ out.cols = fns := by
  have hres : resolvePredictors (some m) modelName info.predictors = fns := by
    simp only [resolvePredictors]
    rw [h]
  refine ⟨hres, fun hdiff => hres ▸ hdiff, ?_⟩
  have hmiss : fns.filter (fun c => decide (c ∉ df.cols)) = [] :=
    List.filter_eq_nil_iff.mpr (fun c hc => by simp [hsub c hc])
  have hrestrict : restrictLists df.cols fns info.scale_features
      info.leave_unscaled = (fns, info.scale_features, info.leave_unscaled) := by
    simp only [restrictLists]
    rw [hmiss]
    rfl
  obtain ⟨sub, hsel, hcols⟩ := selectCols?_some df fns hsub
  refine ⟨applyScaling sub.fillna0 sc info.scale_features, ?_, ?_⟩
  · simp only [preprocess_data, hres, hrestrict, isEmpty_false_of_ne_nil hne,
      Bool.false_eq_true, if_false, hsel]
  · rw [applyScaling_cols, fillna0_cols, hcols]

/-- C1 witness: a model declaring feature order `["b", "a"]` against
metadata order `["a", "b"]` resolves to `["b", "a"]`, and the frame is
built in that order. -/
theorem claim1_model_feature_order_witness :
    ((⟨some ["b", "a"], false, none⟩ : ModelArtifact).feature_names_in
        = some ["b", "a"])
    ∧ (["b", "a"] ≠ ([] : List String))
    ∧ (∀ c ∈ ["b", "a"],
        c ∈ (⟨["a", "b"], [true, true], [[some 1, some 2]]⟩ : Frame).cols)
    ∧ (resolvePredictors (some ⟨some ["b", "a"], false, none⟩) "model"
          (ModelInfo.mk ["a", "b"] [] [] []).predictors = ["b", "a"]
        ∧ (["b", "a"] ≠ (ModelInfo.mk ["a", "b"] [] [] []).predictors →
            resolvePredictors (some ⟨some ["b", "a"], false, none⟩) "model"
              (ModelInfo.mk ["a", "b"] [] [] []).predictors
              ≠ (ModelInfo.mk ["a", "b"] [] [] []).predictors)
        ∧ ∃ out, preprocess_data ⟨["a", "b"], [true, true], [[some 1, some 2]]⟩
              (some ⟨some ["b", "a"], false, none⟩) "model"
              (ModelInfo.mk ["a", "b"] [] [] []) none = some out
            ∧ out.cols = ["b", "a"]) :=
  ⟨rfl, by decide, by decide,
   claim1_model_feature_order ⟨some ["b", "a"], false, none⟩ "model"
     (ModelInfo.mk ["a", "b"] [] [] []) ⟨["a", "b"], [true, true], [[some 1, some 2]]⟩
     none ["b", "a"] rfl (by decide) (by decide)⟩

/-- C3: when some required predictor columns are absent from the input
table, the predictor, scale-feature and leave-unscaled lists are each
restricted to the available columns in their original order, preprocessing
still yields a feature frame rather than failing, and if no predictor
survives the restriction the result is the table's numeric columns. -/
theorem claim3_graceful_degradation (df : Frame) (lm : Option ModelArtifact)
    (mn : String) (info : ModelInfo) (sc : Option Scaler)
    (h : (resolvePredictors lm mn info.predictors).filter
        (fun c => decide (c ∉ df.cols)) ≠ []) :
    restrictLists df.cols (resolvePredictors lm mn info.predictors)
        info.scale_features info.leave_unscaled
      = ((resolvePredictors lm mn info.predictors).filter
            (fun c => decide (c ∈ df.cols)),
         info.scale_features.filter (fun c => decide (c ∈ df.cols)),
         info.leave_unscaled.filter (fun c => decide (c ∈ df.cols)))
    ∧ (∃ out, preprocess_data df lm mn info sc = some out)
    ∧ (((resolvePredictors lm mn info.predictors).filter
          (fun c => decide (c ∈ df.cols))) = [] →
        preprocess_data df lm mn info sc = some df.selectNumericCols) := by
  have hie : ((resolvePredictors lm mn info.predictors).filter
      (fun c => decide (c ∉ df.cols))).isEmpty = false :=
    isEmpty_false_of_ne_nil h
  have hrestrict : restrictLists df.cols (resolvePredictors lm mn info.predictors)
      info.scale_features info.leave_unscaled
      = ((resolvePredictors lm mn info.predictors).filter
            (fun c => decide (c ∈ df.cols)),
         info.scale_features.filter (fun c => decide (c ∈ df.cols)),
         info.leave_unscaled.filter (fun c => decide (c ∈ df.cols))) := by
    simp only [restrictLists]
    rw [hie]
    rfl
  refine ⟨hrestrict, ?_, ?_⟩
  · by_cases hfe : (resolvePredictors lm mn info.predictors).filter
        (fun c => decide (c ∈ df.cols)) = []
    · exact ⟨df.selectNumericCols, by simp [preprocess_data, hrestrict, hfe]⟩
    · have hsub' : ∀ c ∈ (resolvePredictors lm mn info.predictors).filter
          (fun c => decide (c ∈ df.cols)), c ∈ df.cols :=
        fun c hc => of_decide_eq_true (List.mem_filter.mp hc).2
      obtain ⟨sub, hsel, hcols⟩ := selectCols?_some df _ hsub'
      refine ⟨applyScaling sub.fillna0 sc
        (info.scale_features.filter (fun c => decide (c ∈ df.cols))), ?_⟩
      simp only [preprocess_data, hrestrict, isEmpty_false_of_ne_nil hfe,
        Bool.false_eq_true, if_false, hsel]
  · intro hfe
    simp [preprocess_data, hrestrict, hfe]

/-- C3 witness: metadata wants `["a", "b"]` but the table has only columns
`["a", "x"]` (of which `x` is non-numeric): the lists are restricted to
`["a"]` and a frame is produced; with both predictors missing, the numeric
fallback is exercised. -/
theorem claim3_graceful_degradation_witness :
    ((resolvePredictors none "m"
        (ModelInfo.mk ["a", "b"] ["a", "b"] ["b"] []).predictors).filter
          (fun c => decide (c ∉ (⟨["a", "x"], [true, false],
            [[some 1, none]]⟩ : Frame).cols)) ≠ [])
    ∧ (restrictLists (⟨["a", "x"], [true, false], [[some 1, none]]⟩ : Frame).cols
          (resolvePredictors none "m"
            (ModelInfo.mk ["a", "b"] ["a", "b"] ["b"] []).predictors)
          (ModelInfo.mk ["a", "b"] ["a", "b"] ["b"] []).scale_features
          (ModelInfo.mk ["a", "b"] ["a", "b"] ["b"] []).leave_unscaled
        = ((resolvePredictors none "m"
              (ModelInfo.mk ["a", "b"] ["a", "b"] ["b"] []).predictors).filter
                (fun c => decide (c ∈ (⟨["a", "x"], [true, false],
                  [[some 1, none]]⟩ : Frame).cols)),
           (ModelInfo.mk ["a", "b"] ["a", "b"] ["b"] []).scale_features.filter
             (fun c => decide (c ∈ (⟨["a", "x"], [true, false],
               [[some 1, none]]⟩ : Frame).cols)),
           (ModelInfo.mk ["a", "b"] ["a", "b"] ["b"] []).leave_unscaled.filter
             (fun c => decide (c ∈ (⟨["a", "x"], [true, false],
               [[some 1, none]]⟩ : Frame).cols)))
        ∧ (∃ out, preprocess_data ⟨["a", "x"], [true, false], [[some 1, none]]⟩
              none "m" (ModelInfo.mk ["a", "b"] ["a", "b"] ["b"] []) none
              = some out)
        ∧ (((resolvePredictors none "m"
              (ModelInfo.mk ["a", "b"] ["a", "b"] ["b"] []).predictors).filter
                (fun c => decide (c ∈ (⟨["a", "x"], [true, false],
                  [[some 1, none]]⟩ : Frame).cols))) = [] →
            preprocess_data ⟨["a", "x"], [true, false], [[some 1, none]]⟩
              none "m" (ModelInfo.mk ["a", "b"] ["a", "b"] ["b"] []) none
              = some (⟨["a", "x"], [true, false],
                  [[some 1, none]]⟩ : Frame).selectNumericCols)) :=
  ⟨by decide,
   claim3_graceful_degradation ⟨["a", "x"], [true, false], [[some 1, none]]⟩
     none "m" (ModelInfo.mk ["a", "b"] ["a", "b"] ["b"] []) none (by decide)⟩

/-- C8 (counterexample): `analyze_csv` embeds the wall-clock timestamp
(`datetime.now().isoformat()`) in its payload, so two calls on identical
predictions and artifacts made at different times return different
payloads — the claim's "identical output payloads" fails. -/
theorem claim8_counterexample :
    analyze_csv "model" [1]
        { predictors := [], scale_features := [], leave_unscaled := [],
          model_performance := [] } "2024-01-01T00:00:00"
      ≠ analyze_csv "model" [1]
        { predictors := [], scale_features := [], leave_unscaled := [],
          model_performance := [] } "2024-01-02T00:00:00" := by
  with_unfolding_all decide

/-- C8 (amended): `build_feature_frame` is deterministic — two runs on the
same table, model outcome, metadata and scaler are equal — and two
`analyze_csv` calls on the same predictions and artifacts agree on every
payload field except `timestamp`, which records each call's observed
wall-clock time. -/
theorem claim8_determinism_mod_timestamp (df : Frame)
    (lm : Option ModelArtifact) (mn : String) (info : ModelInfo)
    (sc : Option Scaler) (model_name : String) (preds : List ℚ)
    (ainfo : ModelInfo) (t1 t2 : String) :
    preprocess_data df lm mn info sc = preprocess_data df lm mn info sc
    ∧ (analyze_csv model_name preds ainfo t1).map eraseTimestamp
        = (analyze_csv model_name preds ainfo t2).map eraseTimestamp := by
  refine ⟨rfl, ?_⟩
  cases preds with
  | nil => rfl
  | cons a l => rfl

end MsbaSite
